import Mathlib

/-!
Verification of the `GotoVelocityController` node
(`src/home_robot_hw/home_robot_hw/nodes/goto_controller.py`).

The controller state and its handlers are shallowly embedded: each Python
method becomes a Lean function from the controller state (and the message
payload) to the new state together with the handler's response or output.
Angles and coordinates are idealised as real numbers; the Python float
modulo `a % b` (sign of the divisor, `b > 0`) is embedded as
`a - b * ⌊a / b⌋`.

The pose-algebra helpers imported by the node
(`matrix_from_pose_msg`, `sophus2xyt`, `xyt2sophus`, `xyt_global_to_base`
and the `sophus` SE(3) type) are not part of this repository snapshot;
they are modelled from the spec where a claim needs them.
-/

namespace GotoController

/-- A planar pose `(x, y, heading)`, the compact representation the
controller works with (`np.zeros(3)` triples in the source). -/
structure Xyt where
  x : ℝ
  y : ℝ
  theta : ℝ

/-- Modelled from the spec: the 3-D rigid-transform primitives the node
imports (`sophus.SE3` with composition and inverse, `sophus2xyt`,
`xyt2sophus`) are absent from `src/`; the spec treats them as a primitive
algebra "compose, invert, convert to/from a compact planar pose
representation", so they are abstracted as a carrier `P` with those four
operations. -/
structure PoseAlg (P : Type) where
  comp : P → P → P
  inv : P → P
  ofXyt : Xyt → P
  toXyt : P → Xyt

/-- Response of a ROS `Trigger` service (`std_srvs.srv.TriggerResponse`). -/
structure TriggerResponse where
  success : Bool
  message : String

/-- Response of a ROS `SetBool` service (`std_srvs.srv.SetBoolResponse`). -/
structure SetBoolResponse where
  success : Bool
  message : String

/-- The mutable fields of `GotoVelocityController`, as set up in
`__init__`: the configured feedback mode `odom_only`, the two pose
estimates, the optional goal, and the two mode flags. -/
structure GotoState where
  odom_only : Bool
  xyt_loc : Xyt
  xyt_loc_odom : Xyt
  xyt_goal : Option Xyt
  active : Bool
  track_yaw : Bool

/-- `__init__(hz, odom_only_feedback)`: both estimates start at the zero
pose, no goal, `active = False`, `track_yaw = True`. -/
def init_state (odom_only_feedback : Bool) : GotoState where
  odom_only := odom_only_feedback
  xyt_loc := ⟨0, 0, 0⟩
  xyt_loc_odom := ⟨0, 0, 0⟩
  xyt_goal := none
  active := false
  track_yaw := true

/-- `_pose_update_callback`: converts the incoming 3-D pose to planar and
replaces `xyt_loc` wholesale. -/
def pose_update_callback {P : Type} (A : PoseAlg P) (s : GotoState) (msg : P) :
    GotoState :=
  { s with xyt_loc := A.toXyt msg }

/-- `_odom_update_callback`: converts the incoming 3-D pose to planar and
replaces `xyt_loc_odom` wholesale. -/
def odom_update_callback {P : Type} (A : PoseAlg P) (s : GotoState) (msg : P) :
    GotoState :=
  { s with xyt_loc_odom := A.toXyt msg }

/-- `_goal_update_callback`: the projection-through-odometry block in the
source is commented out, so `pose_goal = pose_sp` and the stored goal is
the planar conversion of the received pose itself.  The second component
is the pose handed to the goal visualizer,
`xyt2sophus(xyt_loc) * xyt2sophus(xyt_loc_odom).inverse() * pose_goal`,
which is published but stored nowhere. -/
def goal_update_callback {P : Type} (A : PoseAlg P) (s : GotoState) (msg : P) :
    GotoState × P :=
  let pose_sp := msg
  let pose_goal := pose_sp
  ({ s with xyt_goal := some (A.toXyt pose_goal) },
   A.comp (A.comp (A.ofXyt s.xyt_loc) (A.inv (A.ofXyt s.xyt_loc_odom))) pose_goal)

/-- `_enable_service`: unconditionally sets `active = True` and reports
success. -/
def enable_service (s : GotoState) : GotoState × TriggerResponse :=
  ({ s with active := true },
   { success := true, message := "Goto controller is now RUNNING" })

/-- `_disable_service`: unconditionally sets `active = False` and reports
success. -/
def disable_service (s : GotoState) : GotoState × TriggerResponse :=
  ({ s with active := false },
   { success := true, message := "Goto controller is now STOPPED" })

/-- `_set_yaw_tracking_service`: stores the request flag in `track_yaw`
and reports success with a message showing the new state. -/
def set_yaw_tracking_service (s : GotoState) (data : Bool) :
    GotoState × SetBoolResponse :=
  let s' := { s with track_yaw := data }
  let status_str := if s'.track_yaw then "ON" else "OFF"
  (s', { success := true, message := "Yaw tracking is now " ++ status_str })

/-- Python float modulo with a positive divisor: `a % b = a - b * ⌊a / b⌋`
(the result carries the sign of the divisor). -/
noncomputable def fmod (a b : ℝ) : ℝ := a - b * ⌊a / b⌋

/-- Modelled from the spec: `xyt_global_to_base` from
`home_robot.utils.geometry` is absent from `src/`; per the spec it
expresses a world-frame planar pose in the base frame of another:
"translate by the inverse rotation of the feedback heading, subtract
positions, and compute heading difference". -/
noncomputable def xyt_global_to_base (xyt_world xyt_base : Xyt) : Xyt where
  x := Real.cos xyt_base.theta * (xyt_world.x - xyt_base.x)
    + Real.sin xyt_base.theta * (xyt_world.y - xyt_base.y)
  y := -Real.sin xyt_base.theta * (xyt_world.x - xyt_base.x)
    + Real.cos xyt_base.theta * (xyt_world.y - xyt_base.y)
  theta := xyt_world.theta - xyt_base.theta

/-- The feedback-pose selection in `_compute_error_pose`:
`xyt_loc = self.xyt_loc_odom if self.odom_only else self.xyt_loc`. -/
def feedback_pose (s : GotoState) : Xyt :=
  if s.odom_only then s.xyt_loc_odom else s.xyt_loc

/-- `_compute_error_pose`: the goal argument is `self.xyt_goal`, which the
control loop guarantees is present before calling.  The heading component
is zeroed when `track_yaw` is off, otherwise wrapped by
`(err + pi) % (2*pi) - pi`. -/
noncomputable def compute_error_pose (s : GotoState) (goal : Xyt) : Xyt :=
  let xyt_err := xyt_global_to_base goal (feedback_pose s)
  if s.track_yaw = false then
    { xyt_err with theta := 0 }
  else
    { xyt_err with theta := fmod (xyt_err.theta + Real.pi) (2 * Real.pi) - Real.pi }

/-- One iteration of the body of `_run_control_loop`, parametrised by the
opaque velocity control law `ctrl` (`DDVelocityControlNoplan.__call__`):
when `self.active and self.xyt_goal is not None` the error is computed,
the control law invoked, and the resulting `(v, w)` published via
`_set_velocity`; otherwise nothing is computed or published (`none`). -/
noncomputable def control_tick (ctrl : Xyt → ℝ × ℝ) (s : GotoState) :
    Option (ℝ × ℝ) :=
  match s.active, s.xyt_goal with
  | true, some g => some (ctrl (compute_error_pose s g))
  | _, _ => none

/-- The planar pose algebra itself, used to instantiate witnesses. -/
def planarAlg : PoseAlg Xyt where
  comp p q := ⟨p.x + q.x, p.y + q.y, p.theta + q.theta⟩
  inv p := ⟨-p.x, -p.y, -p.theta⟩
  ofXyt p := p
  toXyt p := p

/-- `a % b` with `0 < b` lies in `[0, b)`. -/
theorem fmod_mem_Ico (a b : ℝ) (hb : 0 < b) : 0 ≤ fmod a b ∧ fmod a b < b := by
  unfold fmod
  have h1 : (⌊a / b⌋ : ℝ) ≤ a / b := Int.floor_le _
  have h2 : a / b < ⌊a / b⌋ + 1 := Int.lt_floor_add_one _
  have h3 : b * (a / b) = a := by field_simp
  constructor
  · nlinarith [mul_le_mul_of_nonneg_left h1 hb.le]
  · nlinarith [mul_lt_mul_of_pos_left h2 hb]

/-- `b % b = 0` for nonzero `b`. -/
theorem fmod_self (b : ℝ) (hb : b ≠ 0) : fmod b b = 0 := by
  unfold fmod
  rw [div_self hb]
  simp

/-- With yaw tracking on, the heading error is the wrapped heading
difference. -/
theorem compute_error_theta_track (s : GotoState) (g : Xyt)
    (h : s.track_yaw = true) :
    (compute_error_pose s g).theta
      = fmod (g.theta - (feedback_pose s).theta + Real.pi) (2 * Real.pi)
        - Real.pi := by
  simp [compute_error_pose, xyt_global_to_base, h]

/-- A concrete odometry-fed state used to exhibit concrete behaviour:
zero pose estimates, yaw tracking on, a goal whose heading is `pi`. -/
noncomputable def exState : GotoState :=
  ⟨true, ⟨0, 0, 0⟩, ⟨0, 0, 0⟩, some ⟨0, 0, Real.pi⟩, true, true⟩

/-- The goal stored in `exState`. -/
noncomputable def exGoal : Xyt := ⟨0, 0, Real.pi⟩

/-- C1: the claim that the wrapped heading error always lies in
`(-pi, pi]` fails: at feedback heading `0` and goal heading `pi` the
wrap `(err + pi) % (2*pi) - pi` returns exactly `-pi`, which is outside
the half-open interval `(-pi, pi]`. -/
theorem C1_counterexample :
    (compute_error_pose exState exGoal).theta = -Real.pi ∧
      ¬(-Real.pi < (compute_error_pose exState exGoal).theta ∧
        (compute_error_pose exState exGoal).theta ≤ Real.pi) := by
  have hval : (compute_error_pose exState exGoal).theta = -Real.pi := by
    rw [compute_error_theta_track exState exGoal rfl]
    show fmod (Real.pi - 0 + Real.pi) (2 * Real.pi) - Real.pi = -Real.pi
    rw [show Real.pi - 0 + Real.pi = 2 * Real.pi by ring]
    rw [fmod_self (2 * Real.pi) (by positivity)]
    ring
  refine ⟨hval, fun hc => ?_⟩
  rw [hval] at hc
  exact lt_irrefl _ hc.1

/-- C1 (amended): with yaw tracking enabled, the heading-error component
produced by `_compute_error_pose` lies in the half-open interval
`[-pi, pi)` — half-open on the other side than the spec states. -/
theorem C1_wrap_range (s : GotoState) (g : Xyt) (h : s.track_yaw = true) :
    -Real.pi ≤ (compute_error_pose s g).theta ∧
      (compute_error_pose s g).theta < Real.pi := by
  rw [compute_error_theta_track s g h]
  have hb : (0 : ℝ) < 2 * Real.pi := by positivity
  have hm := fmod_mem_Ico (g.theta - (feedback_pose s).theta + Real.pi)
    (2 * Real.pi) hb
  exact ⟨by linarith [hm.1], by linarith [hm.2]⟩

/-- Witness for C1 (amended) at a concrete state and goal. -/
theorem C1_wrap_range_witness :
    -Real.pi ≤ (compute_error_pose exState exGoal).theta ∧
      (compute_error_pose exState exGoal).theta < Real.pi :=
  C1_wrap_range exState exGoal rfl

/-- C2: on a tick where `active` is false or no goal is stored, the
control-loop body computes nothing and publishes nothing — for every
possible control law `ctrl`, the tick yields `none`. -/
theorem C2_idle_emits_nothing (ctrl : Xyt → ℝ × ℝ) (s : GotoState)
    (h : s.active = false ∨ s.xyt_goal = none) :
    control_tick ctrl s = none := by
  cases hg : s.xyt_goal <;> cases ha : s.active <;>
    simp_all [control_tick]

/-- Witness for C2: the freshly constructed controller (inactive, no
goal) emits nothing. -/
theorem C2_idle_witness :
    control_tick (fun e => (e.x, e.theta)) (init_state true) = none :=
  C2_idle_emits_nothing _ _ (Or.inl rfl)

/-- C3: with `track_yaw = false`, the heading component of the computed
error is exactly `0`, whatever the goal and feedback headings are. -/
theorem C3_yaw_gate (s : GotoState) (g : Xyt) (h : s.track_yaw = false) :
    (compute_error_pose s g).theta = 0 := by
  simp [compute_error_pose, h]

/-- A concrete state with yaw tracking off. -/
def exStateNoYaw : GotoState :=
  ⟨true, ⟨0, 0, 0⟩, ⟨4, 5, 6⟩, some ⟨1, 2, 3⟩, true, false⟩

/-- Witness for C3 at a concrete state and goal. -/
theorem C3_yaw_gate_witness :
    (compute_error_pose exStateNoYaw ⟨1, 2, 3⟩).theta = 0 :=
  C3_yaw_gate exStateNoYaw ⟨1, 2, 3⟩ rfl

/-- C4: in odometry-only mode the error computation reads
`xyt_loc_odom` (and is independent of `xyt_loc`), otherwise it reads
`xyt_loc` (and is independent of `xyt_loc_odom`); and no handler ever
modifies the `odom_only` flag, so the selection fixed at construction
never changes at runtime. -/
theorem C4_feedback_source {P : Type} (A : PoseAlg P) (s : GotoState)
    (g v : Xyt) (p : P) (b : Bool) :
    (s.odom_only = true →
      feedback_pose s = s.xyt_loc_odom ∧
        compute_error_pose s g = compute_error_pose { s with xyt_loc := v } g) ∧
    (s.odom_only = false →
      feedback_pose s = s.xyt_loc ∧
        compute_error_pose s g
          = compute_error_pose { s with xyt_loc_odom := v } g) ∧
    (pose_update_callback A s p).odom_only = s.odom_only ∧
    (odom_update_callback A s p).odom_only = s.odom_only ∧
    ((goal_update_callback A s p).1).odom_only = s.odom_only ∧
    ((enable_service s).1).odom_only = s.odom_only ∧
    ((disable_service s).1).odom_only = s.odom_only ∧
    ((set_yaw_tracking_service s b).1).odom_only = s.odom_only := by
  refine ⟨fun h => ⟨?_, ?_⟩, fun h => ⟨?_, ?_⟩, rfl, rfl, rfl, rfl, rfl, rfl⟩
  · simp [feedback_pose, h]
  · simp [compute_error_pose, feedback_pose, h]
  · simp [feedback_pose, h]
  · simp [compute_error_pose, feedback_pose, h]

/-- Witness for C4 at the two concrete construction modes. -/
theorem C4_feedback_source_witness :
    feedback_pose (init_state true) = (init_state true).xyt_loc_odom ∧
      feedback_pose (init_state false) = (init_state false).xyt_loc :=
  ⟨((C4_feedback_source planarAlg (init_state true) ⟨0, 0, 0⟩ ⟨1, 1, 1⟩
      ⟨0, 0, 0⟩ true).1 rfl).1,
   ((C4_feedback_source planarAlg (init_state false) ⟨0, 0, 0⟩ ⟨1, 1, 1⟩
      ⟨0, 0, 0⟩ true).2.1 rfl).1⟩

/-- C5: `disable` sets `active` to false, returns success, and leaves
every other field of the state unchanged (goal, both pose estimates,
yaw-tracking flag, feedback-mode flag); it is idempotent, and calling it
when `active` is already false leaves the whole state unchanged. -/
theorem C5_disable_frame (s : GotoState) :
    ((disable_service s).1.active = false) ∧
    ((disable_service s).2.success = true) ∧
    ((disable_service s).1.odom_only = s.odom_only) ∧
    ((disable_service s).1.xyt_loc = s.xyt_loc) ∧
    ((disable_service s).1.xyt_loc_odom = s.xyt_loc_odom) ∧
    ((disable_service s).1.xyt_goal = s.xyt_goal) ∧
    ((disable_service s).1.track_yaw = s.track_yaw) ∧
    ((disable_service ((disable_service s).1)).1 = (disable_service s).1) ∧
    (s.active = false → (disable_service s).1 = s) := by
  refine ⟨rfl, rfl, rfl, rfl, rfl, rfl, rfl, rfl, fun h => ?_⟩
  cases s
  simp_all [disable_service]

/-- Witness for C5: disabling the freshly constructed (already inactive)
controller changes nothing and reports success. -/
theorem C5_disable_frame_witness :
    (disable_service (init_state true)).1 = init_state true ∧
      (disable_service (init_state true)).2.success = true :=
  ⟨(C5_disable_frame (init_state true)).2.2.2.2.2.2.2.2 rfl,
   (C5_disable_frame (init_state true)).2.1⟩

/-- C6: `enable` always succeeds with a message and sets `active` to
true; a second consecutive call also succeeds, leaves `active` true, and
produces exactly the same state (idempotent). -/
theorem C6_enable_idempotent (s : GotoState) :
    ((enable_service s).1.active = true) ∧
    ((enable_service s).2.success = true) ∧
    ((enable_service s).2.message = "Goto controller is now RUNNING") ∧
    ((enable_service ((enable_service s).1)).2.success = true) ∧
    ((enable_service ((enable_service s).1)).1.active = true) ∧
    ((enable_service ((enable_service s).1)).1 = (enable_service s).1) :=
  ⟨rfl, rfl, rfl, rfl, rfl, rfl⟩

/-- C7: all three command handlers answer `success = true` on every
request; `set_yaw_tracking` stores exactly the requested flag and its
message reflects the new state (`ON`/`OFF`). -/
theorem C7_services_always_succeed (s : GotoState) (b : Bool) :
    ((enable_service s).2.success = true) ∧
    ((disable_service s).2.success = true) ∧
    ((set_yaw_tracking_service s b).2.success = true) ∧
    ((set_yaw_tracking_service s b).1.track_yaw = b) ∧
    ((set_yaw_tracking_service s b).2.message
      = "Yaw tracking is now " ++ (if b then "ON" else "OFF")) :=
  ⟨rfl, rfl, rfl, rfl, rfl⟩

/-- C8: the two mode flags are independent — `set_yaw_tracking` never
changes `active`, and `enable`/`disable` never change `track_yaw`. -/
theorem C8_mode_independence (s : GotoState) (b : Bool) :
    ((set_yaw_tracking_service s b).1.active = s.active) ∧
    ((enable_service s).1.track_yaw = s.track_yaw) ∧
    ((disable_service s).1.track_yaw = s.track_yaw) :=
  ⟨rfl, rfl, rfl⟩

/-- C10: the goal handler stores the planar conversion of the received
pose itself (the projection-through-odometry block is commented out in
the source): the stored goal is the same for any two prior states — in
particular for both feedback modes and both values of `active` — and the
visualization side effect leaves every field other than `xyt_goal`
unchanged. -/
theorem C10_goal_stored_directly {P : Type} (A : PoseAlg P)
    (s s' : GotoState) (msg : P) :
    ((goal_update_callback A s msg).1.xyt_goal = some (A.toXyt msg)) ∧
    ((goal_update_callback A s msg).1.xyt_goal
      = (goal_update_callback A s' msg).1.xyt_goal) ∧
    ((goal_update_callback A s msg).1.odom_only = s.odom_only) ∧
    ((goal_update_callback A s msg).1.xyt_loc = s.xyt_loc) ∧
    ((goal_update_callback A s msg).1.xyt_loc_odom = s.xyt_loc_odom) ∧
    ((goal_update_callback A s msg).1.active = s.active) ∧
    ((goal_update_callback A s msg).1.track_yaw = s.track_yaw) :=
  ⟨rfl, rfl, rfl, rfl, rfl, rfl, rfl⟩

end GotoController
